import Mathlib

/-!
Shallow embedding of `src/pathmap.rs` (crate `sark_pathfinding_rs`):
the map abstraction layer for grid pathfinding, with two concrete map
types (`PathMap2d`, a binary obstacle map, and `PathMap2DWeighted`, a
weighted terrain map) over a row-major 2D grid container.

The grid container (`sark_grids::Grid`), the coordinate helpers
(`GridPoint::adj_8`, `GridPoint::as_index`, `GridPoint::taxi_dist`) and
`glam::IVec2` are external collaborators of the repository; they are
modelled here from the spec's description of the container contract
(fixed `width * height` storage, row-major linear indexing, bounds
checking on 2D coordinates, the 8-connected neighborhood, taxicab
distance).  Machine-integer notes: coordinates are i32 in the source;
the i32-to-usize cast performed by `as_index` is modelled exactly on
the i32 range (sign extension).  The usize multiply/add of the linear
index and the i32 additions of weighted costs are modelled as exact
integer arithmetic (in the source, overflowing them panics in debug
builds; the spec treats weights as small non-negative costs).
-/

/-- 2D integer coordinate: models `glam::IVec2` (two i32 components). -/
abbrev Coord := Int × Int

/-- The i32-to-usize cast used by `GridPoint::as_index`
(`p.x as usize`): sign extension into a 64-bit unsigned value.
Exact on the whole i32 range of an `IVec2` component. -/
def usizeOfI32 (x : Int) : Nat :=
  if 0 ≤ x then x.toNat else (x + 2 ^ 64).toNat

/-- Modelled from the spec: `GridPoint::as_index(width)` of the external
grid collaborator — row-major linearization
`p.y as usize * width + p.x as usize`. -/
def as_index (width : Nat) (p : Coord) : Nat :=
  usizeOfI32 p.2 * width + usizeOfI32 p.1

/-- Modelled from the spec: the 8-connected neighborhood offsets behind
`GridPoint::adj_8` (all eight nonzero offsets in {-1,0,1} x {-1,0,1},
in a fixed deterministic order). -/
def ADJ_8 : List Coord :=
  [(-1, -1), (0, -1), (1, -1), (-1, 0), (1, 0), (-1, 1), (0, 1), (1, 1)]

/-- Modelled from the spec: `GridPoint::adj_8`, the 8 neighbors of `p`. -/
def adj_8 (p : Coord) : List Coord :=
  ADJ_8.map (fun d => (p.1 + d.1, p.2 + d.2))

/-- Modelled from the spec: `GridPoint::taxi_dist`, the taxicab
(Manhattan) distance `|a.x - b.x| + |a.y - b.y|` as an unsigned value. -/
def taxi_dist (a b : Coord) : Nat :=
  (a.1 - b.1).natAbs + (a.2 - b.2).natAbs

/-- Modelled from the spec: the external indexed 2D container
`sark_grids::Grid<T>` — fixed-size `width * height` row-major storage. -/
structure Grid (α : Type) where
  width : Nat
  height : Nat
  cells : List α
  size_eq : cells.length = width * height

/-- `Grid::default(size)`: a grid whose every cell is the type's
default value (`false` for `bool`, `NonWeighted` for `GridCell`). -/
def Grid.create (α : Type) [Inhabited α] (w h : Nat) : Grid α :=
  ⟨w, h, List.replicate (w * h) default, by simp⟩

/-- `Grid::in_bounds(p)`: `0 <= x < width` and `0 <= y < height`. -/
def Grid.in_bounds {α : Type} (g : Grid α) (p : Coord) : Bool :=
  decide (0 ≤ p.1) && decide (p.1 < (g.width : Int)) &&
    decide (0 ≤ p.2) && decide (p.2 < (g.height : Int))

/-- `slice.get(i)` on the grid's backing slice: `some` cell when the
linear index is in range, `none` otherwise. -/
def Grid.slice_get {α : Type} (g : Grid α) (i : Nat) : Option α :=
  g.cells.get? i

/-- The indexing operator `self[p]` (total rendering: in the source an
out-of-range linear index panics; every use below is at an in-range
index, where this equals the stored cell). -/
def Grid.read {α : Type} [Inhabited α] (g : Grid α) (p : Coord) : α :=
  g.cells.getD (as_index g.width p) default

/-- The index-assignment `self[p] = v` (in the source an out-of-range
linear index panics; out-of-range writes are a no-op here and every
use below is in-bounds). -/
def Grid.write {α : Type} (g : Grid α) (p : Coord) (v : α) : Grid α :=
  ⟨g.width, g.height, g.cells.set (as_index g.width p) v, by
    simp [g.size_eq]⟩

/-- `PathMap2d`: a pathmap represented as a 2d grid of `bool`;
a position is an obstacle iff its flag is `true`. -/
structure PathMap2d where
  grid : Grid Bool

/-- `PathMap2d::new(size)`: all values set to `false` (no obstacles). -/
def PathMap2d.new (size : Nat × Nat) : PathMap2d :=
  ⟨Grid.create Bool size.1 size.2⟩

/-- `PathMap2d::is_obstacle(p)`. -/
def PathMap2d.is_obstacle (m : PathMap2d) (p : Coord) : Bool :=
  m.grid.read p

/-- `PathMap2d::set_obstacle(p, v)`. -/
def PathMap2d.set_obstacle (m : PathMap2d) (p : Coord) (v : Bool) :
    PathMap2d :=
  ⟨m.grid.write p v⟩

/-- `PathMap2d::exits(p)`: each of the 8 neighbors of `p` that is
in-bounds and not an obstacle, in offset order. -/
def PathMap2d.exits (m : PathMap2d) (p : Coord) : List Coord :=
  (adj_8 p).filter (fun adj => m.grid.in_bounds adj && !(m.grid.read adj))

/-- `PathMap2d::cost(a, b)`: constant 1. -/
def PathMap2d.cost (_ : PathMap2d) (_ _ : Coord) : Int := 1

/-- `PathMap2d::distance(a, b)`: taxicab distance. -/
def PathMap2d.distance (_ : PathMap2d) (a b : Coord) : Nat :=
  taxi_dist a b

/-- `GridCell`: per-cell terrain classification of the weighted map.
`NonWeighted` (the default) is the spec's `Open`. -/
inductive GridCell where
  | Weighted (v : Int)
  | Blocked
  | NonWeighted
deriving DecidableEq

instance : Inhabited GridCell := ⟨GridCell.NonWeighted⟩

/-- `PathMap2DWeighted`: a pathmap over a 2d grid of `GridCell`. -/
structure PathMap2DWeighted where
  grid : Grid GridCell

/-- `PathMap2DWeighted::new(size)`: all values `NonWeighted`. -/
def PathMap2DWeighted.new (size : Nat × Nat) : PathMap2DWeighted :=
  ⟨Grid.create GridCell size.1 size.2⟩

/-- `PathMap2DWeighted::is_obstacle(p)`. -/
def PathMap2DWeighted.is_obstacle (m : PathMap2DWeighted) (p : Coord) :
    GridCell :=
  m.grid.read p

/-- `PathMap2DWeighted::set_obstacle(p, v)`. -/
def PathMap2DWeighted.set_obstacle (m : PathMap2DWeighted) (p : Coord)
    (v : GridCell) : PathMap2DWeighted :=
  ⟨m.grid.write p v⟩

/-- The passability test of `PathMap2DWeighted::exits`:
`GridCell::Weighted(_) | GridCell::NonWeighted` matches. -/
def GridCell.passable : GridCell → Bool
  | GridCell.Weighted _ => true
  | GridCell.NonWeighted => true
  | GridCell.Blocked => false

/-- `PathMap2DWeighted::exits(p)`: each of the 8 neighbors of `p` that
is in-bounds and whose cell is `Weighted` or `NonWeighted`. -/
def PathMap2DWeighted.exits (m : PathMap2DWeighted) (p : Coord) :
    List Coord :=
  (adj_8 p).filter
    (fun adj => m.grid.in_bounds adj && (m.grid.read adj).passable)

/-- The match arms of `PathMap2DWeighted::cost` on the two cells. -/
def GridCell.combine : GridCell → GridCell → Int
  | GridCell.Weighted v1, GridCell.Weighted v2 => v1 + v2
  | GridCell.Weighted v, _ => v + 1
  | _, GridCell.Weighted v => v + 1
  | _, _ => 2

/-- `PathMap2DWeighted::cost(p1, p2)`: fetch both cells through
`slice.get` on the linearized indices; combine them when both fetches
succeed, otherwise `unreachable!()` (modelled as `none`). -/
def PathMap2DWeighted.cost (m : PathMap2DWeighted) (p1 p2 : Coord) :
    Option Int :=
  match m.grid.slice_get (as_index m.grid.width p1),
      m.grid.slice_get (as_index m.grid.width p2) with
  | some c1, some c2 => some (GridCell.combine c1 c2)
  | _, _ => none

/-- `PathMap2DWeighted::distance(a, b)`: taxicab distance. -/
def PathMap2DWeighted.distance (_ : PathMap2DWeighted) (a b : Coord) :
    Nat :=
  taxi_dist a b

/-! ### Basic lemmas about the grid model -/

theorem usizeOfI32_of_nonneg {x : Int} (h : 0 ≤ x) :
    usizeOfI32 x = x.toNat := by
  simp [usizeOfI32, h]

theorem in_bounds_iff {α : Type} (g : Grid α) (p : Coord) :
    g.in_bounds p = true ↔
      0 ≤ p.1 ∧ p.1 < (g.width : Int) ∧ 0 ≤ p.2 ∧ p.2 < (g.height : Int) := by
  simp [Grid.in_bounds, and_assoc]

theorem as_index_eq_of_in_bounds {α : Type} (g : Grid α) (p : Coord)
    (h : g.in_bounds p = true) :
    as_index g.width p = p.2.toNat * g.width + p.1.toNat := by
  obtain ⟨hx0, _, hy0, _⟩ := (in_bounds_iff g p).mp h
  simp [as_index, usizeOfI32_of_nonneg hx0, usizeOfI32_of_nonneg hy0]

theorem as_index_lt_of_in_bounds {α : Type} (g : Grid α) (p : Coord)
    (h : g.in_bounds p = true) :
    as_index g.width p < g.cells.length := by
  obtain ⟨hx0, hxw, hy0, hyh⟩ := (in_bounds_iff g p).mp h
  rw [as_index_eq_of_in_bounds g p h, g.size_eq]
  have hx : p.1.toNat < g.width := by omega
  have hy : p.2.toNat < g.height := by omega
  calc p.2.toNat * g.width + p.1.toNat
      < p.2.toNat * g.width + g.width := by omega
    _ = (p.2.toNat + 1) * g.width := by ring
    _ ≤ g.height * g.width := Nat.mul_le_mul_right _ (by omega)
    _ = g.width * g.height := Nat.mul_comm _ _

theorem slice_get_of_in_bounds {α : Type} [Inhabited α] (g : Grid α)
    (p : Coord) (h : g.in_bounds p = true) :
    g.slice_get (as_index g.width p) = some (g.read p) := by
  have hlt := as_index_lt_of_in_bounds g p h
  simp [Grid.slice_get, Grid.read, List.get?_eq_getElem?,
    List.getElem?_eq_getElem hlt, List.getD_eq_getElem?_getD]

theorem slice_get_none_iff {α : Type} (g : Grid α) (i : Nat) :
    g.slice_get i = none ↔ g.cells.length ≤ i := by
  simp [Grid.slice_get, List.get?_eq_getElem?, List.getElem?_eq_none_iff]

theorem read_create {α : Type} [Inhabited α] (w h : Nat) (p : Coord) :
    (Grid.create α w h).read p = default := by
  simp [Grid.create, Grid.read, List.getD_eq_getElem?_getD,
    List.getElem?_replicate]
  split <;> rfl

theorem in_bounds_write {α : Type} (g : Grid α) (q : Coord) (v : α)
    (p : Coord) : (g.write q v).in_bounds p = g.in_bounds p := rfl

theorem read_write_self {α : Type} [Inhabited α] (g : Grid α) (p : Coord)
    (v : α) (h : g.in_bounds p = true) : (g.write p v).read p = v := by
  have hlt := as_index_lt_of_in_bounds g p h
  simp [Grid.write, Grid.read, List.getD_eq_getElem?_getD,
    List.getElem?_set_eq_of_lt v hlt]

/-! ### Lemmas about the 8-connected neighborhood -/

theorem adj_8_length (p : Coord) : (adj_8 p).length = 8 := rfl

theorem adj_8_nodup (p : Coord) : (adj_8 p).Nodup := by
  refine List.Nodup.map ?_ (by decide)
  intro d1 d2 hd
  obtain ⟨h1, h2⟩ := Prod.mk.injEq .. ▸ hd
  exact Prod.ext (by omega) (by omega)

theorem self_not_mem_adj_8 (p : Coord) : p ∉ adj_8 p := by
  intro hmem
  obtain ⟨d, hd, heq⟩ := List.mem_map.mp hmem
  obtain ⟨h1, h2⟩ := Prod.mk.injEq .. ▸ heq
  have hd1 : d.1 = 0 := by omega
  have hd2 : d.2 = 0 := by omega
  have : d = ((0 : Int), (0 : Int)) := Prod.ext hd1 hd2
  rw [this] at hd
  exact absurd hd (by decide)

/-! ### Lemmas about the weighted cost function -/

theorem combine_comm (c1 c2 : GridCell) :
    GridCell.combine c1 c2 = GridCell.combine c2 c1 := by
  cases c1 <;> cases c2 <;> simp [GridCell.combine, Int.add_comm]

theorem cost_eq_combine (m : PathMap2DWeighted) (a b : Coord)
    (ha : m.grid.in_bounds a = true) (hb : m.grid.in_bounds b = true) :
    m.cost a b =
      some (GridCell.combine (m.is_obstacle a) (m.is_obstacle b)) := by
  unfold PathMap2DWeighted.cost
  rw [slice_get_of_in_bounds m.grid a ha, slice_get_of_in_bounds m.grid b hb]
  rfl

/-- Concrete weighted map used by witnesses: 2x2 grid with
`Weighted 3` at (0,0), `Weighted 5` at (1,0), `Blocked` at (0,1),
`NonWeighted` at (1,1). -/
def wmapEx : PathMap2DWeighted :=
  (((PathMap2DWeighted.new (2, 2)).set_obstacle (0, 0)
        (GridCell.Weighted 3)).set_obstacle (1, 0)
      (GridCell.Weighted 5)).set_obstacle (0, 1) GridCell.Blocked

/-- C1: the weighted map's cost follows the 2-cell combination rule for
`Weighted`/`Weighted`, `Weighted`/`Open` (either order, `Open` being the
source's `NonWeighted`) and `Open`/`Open` endpoint cells. -/
theorem claim_C1 (m : PathMap2DWeighted) (a b : Coord)
    (ha : m.grid.in_bounds a = true) (hb : m.grid.in_bounds b = true) :
    (∀ v1 v2, m.is_obstacle a = GridCell.Weighted v1 →
      m.is_obstacle b = GridCell.Weighted v2 →
      m.cost a b = some (v1 + v2)) ∧
    (∀ v, (m.is_obstacle a = GridCell.Weighted v ∧
          m.is_obstacle b = GridCell.NonWeighted) ∨
        (m.is_obstacle a = GridCell.NonWeighted ∧
          m.is_obstacle b = GridCell.Weighted v) →
      m.cost a b = some (v + 1)) ∧
    (m.is_obstacle a = GridCell.NonWeighted ∧
        m.is_obstacle b = GridCell.NonWeighted →
      m.cost a b = some 2) := by
  rw [cost_eq_combine m a b ha hb]
  refine ⟨?_, ?_, ?_⟩
  · intro v1 v2 h1 h2
    rw [h1, h2]
    simp [GridCell.combine]
  · intro v hv
    rcases hv with ⟨h1, h2⟩ | ⟨h1, h2⟩ <;> rw [h1, h2] <;>
      simp [GridCell.combine]
  · intro ⟨h1, h2⟩
    rw [h1, h2]
    simp [GridCell.combine]

/-- C1 witness: on `wmapEx`, `cost((0,0),(1,0)) = 8` with cells
`Weighted 3` and `Weighted 5`. -/
theorem claim_C1_witness : wmapEx.cost (0, 0) (1, 0) = some 8 :=
  (claim_C1 wmapEx (0, 0) (1, 0) (by decide) (by decide)).1 3 5
    (by decide) (by decide)

/-- C8: the weighted map's cost is symmetric in its two endpoints. -/
theorem claim_C8 (m : PathMap2DWeighted) (a b : Coord)
    (ha : m.grid.in_bounds a = true) (hb : m.grid.in_bounds b = true) :
    m.cost a b = m.cost b a := by
  rw [cost_eq_combine m a b ha hb, cost_eq_combine m b a hb ha,
    combine_comm]

/-- C8 witness: symmetry at a concrete `Weighted`/`NonWeighted` pair. -/
theorem claim_C8_witness : wmapEx.cost (0, 0) (1, 1) = wmapEx.cost (1, 1) (0, 0) :=
  claim_C8 wmapEx (0, 0) (1, 1) (by decide) (by decide)

/-- C10: the weighted map's cost is total over `Blocked` endpoints:
`Weighted v` against `Blocked` (either order) gives `v + 1`, and any
combination of `Open`/`Blocked` with no `Weighted` cell gives 2. -/
theorem claim_C10 (m : PathMap2DWeighted) (a b : Coord)
    (ha : m.grid.in_bounds a = true) (hb : m.grid.in_bounds b = true) :
    (∀ v, (m.is_obstacle a = GridCell.Weighted v ∧
          m.is_obstacle b = GridCell.Blocked) ∨
        (m.is_obstacle a = GridCell.Blocked ∧
          m.is_obstacle b = GridCell.Weighted v) →
      m.cost a b = some (v + 1)) ∧
    ((m.is_obstacle a = GridCell.NonWeighted ∨
        m.is_obstacle a = GridCell.Blocked) →
      (m.is_obstacle b = GridCell.NonWeighted ∨
        m.is_obstacle b = GridCell.Blocked) →
      m.cost a b = some 2) := by
  rw [cost_eq_combine m a b ha hb]
  refine ⟨?_, ?_⟩
  · intro v hv
    rcases hv with ⟨h1, h2⟩ | ⟨h1, h2⟩ <;> rw [h1, h2] <;>
      simp [GridCell.combine]
  · intro hva hvb
    rcases hva with h1 | h1 <;> rcases hvb with h2 | h2 <;>
      rw [h1, h2] <;> simp [GridCell.combine]

/-- C10 witness: `Weighted 3` against `Blocked` gives 4, and
`Blocked` against `NonWeighted` gives 2, on `wmapEx`. -/
theorem claim_C10_witness :
    wmapEx.cost (0, 0) (0, 1) = some 4 ∧ wmapEx.cost (0, 1) (1, 1) = some 2 :=
  ⟨(claim_C10 wmapEx (0, 0) (0, 1) (by decide) (by decide)).1 3
      (Or.inl ⟨by decide, by decide⟩),
    (claim_C10 wmapEx (0, 1) (1, 1) (by decide) (by decide)).2
      (Or.inr (by decide)) (Or.inl (by decide))⟩

/-- C2 counterexample: on a fresh 10x10 weighted map, the coordinate
(12,3) is out of bounds, yet `cost((12,3),(0,0))` silently returns a
value (the linear index 3*10+12 = 42 still lands inside the backing
slice) instead of hitting the `unreachable!()` arm. -/
theorem claim_C2_counterexample :
    (PathMap2DWeighted.new (10, 10)).grid.in_bounds (12, 3) = false ∧
    (PathMap2DWeighted.new (10, 10)).cost (12, 3) (0, 0) = some 2 := by
  constructor
  · decide
  · decide

/-- C2 amended: `cost` on the weighted map hits the fatal
`unreachable!()` arm exactly when the linearized index of one of the
two endpoints falls outside the backing slice; an out-of-bounds
coordinate whose linearized index is still within `width * height`
makes `cost` silently return a value read from unrelated cells. -/
theorem claim_C2_amended (m : PathMap2DWeighted) (a b : Coord) :
    m.cost a b = none ↔
      m.grid.cells.length ≤ as_index m.grid.width a ∨
        m.grid.cells.length ≤ as_index m.grid.width b := by
  have hiff1 := slice_get_none_iff m.grid (as_index m.grid.width a)
  have hiff2 := slice_get_none_iff m.grid (as_index m.grid.width b)
  unfold PathMap2DWeighted.cost
  rcases h1 : m.grid.slice_get (as_index m.grid.width a) with _ | c1 <;>
    rcases h2 : m.grid.slice_get (as_index m.grid.width b) with _ | c2 <;>
      simp_all

/-- C5: the binary map's cost is the constant 1 for every pair (a, b)
with b an exit of a (indeed, for any pair: the source ignores both
arguments). -/
theorem claim_C5 (m : PathMap2d) (a b : Coord) (h : b ∈ m.exits a) :
    m.cost a b = 1 := rfl

/-- C5 witness: cost 1 on a concrete diagonal move of a fresh map. -/
theorem claim_C5_witness : (PathMap2d.new (5, 5)).cost (1, 1) (2, 2) = 1 :=
  claim_C5 (PathMap2d.new (5, 5)) (1, 1) (2, 2) (by decide)

/-- C7: both maps' distance is the taxicab distance
`|a.x - b.x| + |a.y - b.y|`; it is symmetric, zero on the diagonal,
and equals 7 between (0,0) and (3,4) on a 10x10 grid. -/
theorem claim_C7 (m : PathMap2d) (mw : PathMap2DWeighted) (a b : Coord) :
    m.distance a b = (a.1 - b.1).natAbs + (a.2 - b.2).natAbs ∧
    mw.distance a b = (a.1 - b.1).natAbs + (a.2 - b.2).natAbs ∧
    m.distance a b = m.distance b a ∧
    mw.distance a b = mw.distance b a ∧
    m.distance a a = 0 ∧ mw.distance a a = 0 ∧
    (PathMap2d.new (10, 10)).distance (0, 0) (3, 4) = 7 ∧
    (PathMap2DWeighted.new (10, 10)).distance (0, 0) (3, 4) = 7 := by
  refine ⟨rfl, rfl, ?_, ?_, ?_, ?_, by decide, by decide⟩ <;>
    simp [PathMap2d.distance, PathMap2DWeighted.distance, taxi_dist] <;>
      omega

/-- C9: freshly constructed maps have every cell at the documented
default: `false` for the binary map, `NonWeighted` (the spec's `Open`)
for the weighted map. -/
theorem claim_C9 (w h : Nat) (p : Coord)
    (hp : (PathMap2d.new (w, h)).grid.in_bounds p = true) :
    (PathMap2d.new (w, h)).is_obstacle p = false ∧
    (PathMap2DWeighted.new (w, h)).is_obstacle p = GridCell.NonWeighted :=
  ⟨read_create w h p, read_create w h p⟩

/-- C9 witness: default cells at (7,9) of fresh 50x50 maps. -/
theorem claim_C9_witness :
    (PathMap2d.new (50, 50)).is_obstacle (7, 9) = false ∧
    (PathMap2DWeighted.new (50, 50)).is_obstacle (7, 9) =
      GridCell.NonWeighted :=
  claim_C9 50 50 (7, 9) (by decide)

/-! ### Exit-enumeration lemmas and claims -/

theorem mem_exits_iff_bin (m : PathMap2d) (p q : Coord) :
    q ∈ m.exits p ↔
      q ∈ adj_8 p ∧ m.grid.in_bounds q = true ∧ m.grid.read q = false := by
  simp [PathMap2d.exits, List.mem_filter, and_assoc]

theorem mem_exits_iff_w (m : PathMap2DWeighted) (p q : Coord) :
    q ∈ m.exits p ↔
      q ∈ adj_8 p ∧ m.grid.in_bounds q = true ∧
        (m.grid.read q).passable = true := by
  simp [PathMap2DWeighted.exits, List.mem_filter, and_assoc]

theorem passable_iff (c : GridCell) :
    c.passable = true ↔ c ≠ GridCell.Blocked := by
  cases c <;> simp [GridCell.passable]

/-- Concrete binary map used by witnesses: 5x5 grid with an obstacle
at (2,2). -/
def bmapEx : PathMap2d := (PathMap2d.new (5, 5)).set_obstacle (2, 2) true

/-- C3: a neighbor q of p is in the binary map's `exits p` iff it is
in-bounds and its obstacle flag is `false`; setting the flag to `true`
removes it from the next `exits p`, and setting it back to `false`
re-adds it. -/
theorem claim_C3 (m : PathMap2d) (p q : Coord) (hq : q ∈ adj_8 p) :
    (q ∈ m.exits p ↔
      m.grid.in_bounds q = true ∧ m.is_obstacle q = false) ∧
    (m.grid.in_bounds q = true →
      q ∉ (m.set_obstacle q true).exits p) ∧
    (m.grid.in_bounds q = true →
      q ∈ (m.set_obstacle q false).exits p) := by
  refine ⟨?_, ?_, ?_⟩
  · rw [mem_exits_iff_bin]
    simp [hq, PathMap2d.is_obstacle]
  · intro hb hmem
    rw [mem_exits_iff_bin] at hmem
    have hread := hmem.2.2
    simp only [PathMap2d.set_obstacle] at hread
    rw [read_write_self m.grid q true hb] at hread
    exact Bool.true_eq_false ▸ hread
  · intro hb
    rw [mem_exits_iff_bin]
    simp only [PathMap2d.set_obstacle]
    exact ⟨hq, by rw [in_bounds_write]; exact hb,
      read_write_self m.grid q false hb⟩

/-- C3 witness: the 5x5 end-to-end scenario at p = (1,1), q = (2,2). -/
theorem claim_C3_witness :
    ((2, 2) ∈ bmapEx.exits (1, 1) ↔
      bmapEx.grid.in_bounds (2, 2) = true ∧
        bmapEx.is_obstacle (2, 2) = false) ∧
    (bmapEx.grid.in_bounds (2, 2) = true →
      (2, 2) ∉ (bmapEx.set_obstacle (2, 2) true).exits (1, 1)) ∧
    (bmapEx.grid.in_bounds (2, 2) = true →
      (2, 2) ∈ (bmapEx.set_obstacle (2, 2) false).exits (1, 1)) :=
  claim_C3 bmapEx (1, 1) (2, 2) (by decide)

/-- C4: a neighbor q of p is in the weighted map's `exits p` iff it is
in-bounds and its cell is not `Blocked`; setting the cell to `Blocked`
removes it from the next `exits p`, and setting it to any non-`Blocked`
cell (`Open`/`Weighted`) restores it. -/
theorem claim_C4 (m : PathMap2DWeighted) (p q : Coord) (hq : q ∈ adj_8 p) :
    (q ∈ m.exits p ↔
      m.grid.in_bounds q = true ∧ m.is_obstacle q ≠ GridCell.Blocked) ∧
    (m.grid.in_bounds q = true →
      q ∉ (m.set_obstacle q GridCell.Blocked).exits p) ∧
    (m.grid.in_bounds q = true → ∀ c, c ≠ GridCell.Blocked →
      q ∈ (m.set_obstacle q c).exits p) := by
  refine ⟨?_, ?_, ?_⟩
  · rw [mem_exits_iff_w]
    simp [hq, PathMap2DWeighted.is_obstacle, passable_iff]
  · intro hb hmem
    rw [mem_exits_iff_w] at hmem
    have hread := hmem.2.2
    simp only [PathMap2DWeighted.set_obstacle] at hread
    rw [read_write_self m.grid q GridCell.Blocked hb] at hread
    exact absurd hread (by simp [GridCell.passable])
  · intro hb c hc
    rw [mem_exits_iff_w]
    simp only [PathMap2DWeighted.set_obstacle]
    refine ⟨hq, by rw [in_bounds_write]; exact hb, ?_⟩
    rw [read_write_self m.grid q c hb]
    exact (passable_iff c).mpr hc

/-- C4 witness: on `wmapEx`, the `Blocked` cell (0,1) is excluded from
`exits (0,0)` and restoring it to `Open`/`Weighted` re-adds it. -/
theorem claim_C4_witness :
    ((0, 1) ∈ wmapEx.exits (0, 0) ↔
      wmapEx.grid.in_bounds (0, 1) = true ∧
        wmapEx.is_obstacle (0, 1) ≠ GridCell.Blocked) ∧
    (wmapEx.grid.in_bounds (0, 1) = true →
      (0, 1) ∉ (wmapEx.set_obstacle (0, 1) GridCell.Blocked).exits (0, 0)) ∧
    (wmapEx.grid.in_bounds (0, 1) = true → ∀ c, c ≠ GridCell.Blocked →
      (0, 1) ∈ (wmapEx.set_obstacle (0, 1) c).exits (0, 0)) :=
  claim_C4 wmapEx (0, 0) (0, 1) (by decide)

/-- C6: for both map types, `exits p` has at most 8 elements, pairwise
distinct, all in-bounds, none equal to p. -/
theorem claim_C6 (m : PathMap2d) (mw : PathMap2DWeighted) (p : Coord)
    (hp : m.grid.in_bounds p = true)
    (hpw : mw.grid.in_bounds p = true) :
    ((m.exits p).length ≤ 8 ∧ (m.exits p).Nodup ∧
      (∀ q ∈ m.exits p, m.grid.in_bounds q = true) ∧ p ∉ m.exits p) ∧
    ((mw.exits p).length ≤ 8 ∧ (mw.exits p).Nodup ∧
      (∀ q ∈ mw.exits p, mw.grid.in_bounds q = true) ∧
        p ∉ mw.exits p) := by
  refine ⟨⟨?_, ?_, ?_, ?_⟩, ⟨?_, ?_, ?_, ?_⟩⟩
  · calc (m.exits p).length ≤ (adj_8 p).length :=
        List.length_filter_le _ _
      _ = 8 := adj_8_length p
  · exact (adj_8_nodup p).filter _
  · intro q hqm
    exact ((mem_exits_iff_bin m p q).mp hqm).2.1
  · intro hmem
    exact self_not_mem_adj_8 p ((mem_exits_iff_bin m p p).mp hmem).1
  · calc (mw.exits p).length ≤ (adj_8 p).length :=
        List.length_filter_le _ _
      _ = 8 := adj_8_length p
  · exact (adj_8_nodup p).filter _
  · intro q hqm
    exact ((mem_exits_iff_w mw p q).mp hqm).2.1
  · intro hmem
    exact self_not_mem_adj_8 p ((mem_exits_iff_w mw p p).mp hmem).1

/-- C6 witness: the property at p = (1,1) of the concrete maps. -/
theorem claim_C6_witness :
    ((bmapEx.exits (1, 1)).length ≤ 8 ∧ (bmapEx.exits (1, 1)).Nodup ∧
      (∀ q ∈ bmapEx.exits (1, 1), bmapEx.grid.in_bounds q = true) ∧
        (1, 1) ∉ bmapEx.exits (1, 1)) ∧
    ((wmapEx.exits (1, 1)).length ≤ 8 ∧ (wmapEx.exits (1, 1)).Nodup ∧
      (∀ q ∈ wmapEx.exits (1, 1), wmapEx.grid.in_bounds q = true) ∧
        (1, 1) ∉ wmapEx.exits (1, 1)) :=
  claim_C6 bmapEx wmapEx (1, 1) (by decide) (by decide)
